import Mathlib

/-
Shallow embedding of the screen-recorder page script (src/script.js, version
1.1.0). The mutable module-level variables and the DOM fields the script reads
or writes are collected into one State structure; each event handler of the
script becomes a function from State (plus an oracle describing the outcomes of
awaited host calls) to a new State paired with the list of externally
observable host-capability calls it performs. The older variant of the script
kept in the repository (src/unnamed/part_000) differs only where noted in the
comments; src/script.js is the final version and is the one embedded.
-/

namespace ScreenRecorder

/-- Bytes of one recorded media chunk, as delivered by the encoder in a
dataavailable event. -/
abbrev Chunk := List Nat

/-- Capture stream: ids of its tracks and the label of its first video track
(an empty label models a falsy label property). -/
structure Stream where
  trackIds : List Nat
  videoLabel : String
deriving DecidableEq, Repr

/-- States of the MediaRecorder object that this script can observe; the
script only ever distinguishes inactive from not inactive, and never pauses,
so recording is the only non-inactive state reachable here. -/
inductive RecState
  | inactive
  | recording
deriving DecidableEq, Repr

/-- Result of an awaited host call: a value, or a thrown error identified by
the name property the catch blocks inspect. -/
inductive Res (α : Type)
  | ok (a : α)
  | err (name : String)
deriving DecidableEq, Repr

/-- Startup capability facts: the feature-detection constants of script.js
lines 22-24 together with the secure-context test of init (line 40, true when
the protocol is https or the host is local). These never change during a page
lifetime. -/
structure Caps where
  supportsDisplayMedia : Bool
  supportsFileSystemAccess : Bool
  isMobile : Bool
  secureContext : Bool
deriving DecidableEq, Repr

/-- Mutable page state: the module-level variables of script.js lines 13-19
and the DOM fields the script reads or writes. systemMessage is none when the
banner is hidden, otherwise the text and the css type of the banner. -/
structure State where
  mediaRecorder : Option RecState
  recordedChunks : List Chunk
  timerInterval : Bool
  timerDisplay : String
  startBtnDisabled : Bool
  stopBtnDisabled : Bool
  pickSourceBtnDisabled : Bool
  pickSaveBtnDisabled : Bool
  pickSaveBtnHidden : Bool
  statusText : String
  statusDotColor : String
  currentStream : Option Stream
  preview : Option Stream
  sourceStatus : String
  saveStatus : String
  fileHandle : Option String
  isFilePickerBlocked : Bool
  systemMessage : Option (String × String)
deriving DecidableEq, Repr

/-- Externally observable calls into host capabilities. -/
inductive Eff
  | trackStop (id : Nat)
  | recorderStart
  | recorderStop
  | confirmPrompt
  | showPicker
  | writeBlob (bytes : List Nat)
  | download (bytes : List Nat)
  | getDisplayMedia (minimal : Bool)
deriving DecidableEq, Repr

/-- showMessage (script.js lines 29-33): set the system message banner. -/
def showMessage (text ty : String) (s : State) : State :=
  { s with systemMessage := some (text, ty) }

/-- Track-stop calls issued for a held stream: the forEach loops of script.js
lines 95 and 311 stop every track. -/
def streamStops : Option Stream → List Eff
  | some st => st.trackIds.map Eff.trackStop
  | none => []

/-- init (script.js lines 38-70): capability negotiation at page load. In an
insecure context it disables source selection, shows a blocking error and
returns early; otherwise it disables source selection when capture is
unsupported (with a mobile-specific message) and switches to auto-download
mode when interactive save is unsupported. The Brave-specific informational
tip of lines 47-53 is presentation only and is not modelled. -/
def init (c : Caps) (s : State) : State :=
  if !c.secureContext then
    { showMessage "Screen recording requires a secure (HTTPS) connection. Please check your URL." "error" s
        with pickSourceBtnDisabled := true }
  else
    let s1 :=
      if !c.supportsDisplayMedia then
        let sMsg :=
          if c.isMobile then
            showMessage "Screen recording is not supported on mobile browsers. Please use a desktop browser like Chrome, Edge, or Brave." "error" s
          else
            showMessage "Your browser does not support screen recording. Please update or use a modern desktop browser." "error" s
        { sMsg with pickSourceBtnDisabled := true }
      else s
    if !c.supportsFileSystemAccess then
      { s1 with
          pickSaveBtnHidden := true,
          saveStatus := "Auto-download mode active: Recordings will save to your Downloads folder." }
    else s1

/-- Blob construction (script.js line 246): the saved blob is the
concatenation of the accumulated chunk byte sequences in order. -/
def mkBlob (chunks : List Chunk) : List Nat := chunks.flatten

/-- triggerDownload (script.js lines 280-295): synthesize a transient link for
the blob, click it, release it, and show an informational confirmation. The
downloadThrows flag models the host throwing inside the try block before the
click; the catch then shows an error banner instead. -/
def triggerDownload (bytes : List Nat) (downloadThrows : Bool) (s : State) :
    State × List Eff :=
  if downloadThrows then
    (showMessage "Save failed. Your browser might be blocking the download. Check your settings." "error" s, [])
  else
    (showMessage "Recording saved to Downloads folder." "info" s, [Eff.download bytes])

/-- Outcomes of the host interactions saveRecording can perform, fixed in
advance as an oracle: the answer to the confirm dialog, the result of the save
picker, the combined result of createWritable, write and close, and whether
the download fallback throws. -/
structure SaveEnv where
  confirmAnswer : Bool
  pickerResult : Res String
  writeResult : Res Unit
  downloadThrows : Bool
deriving DecidableEq, Repr

/-- saveRecording (script.js lines 243-278): no-op on an empty chunk list;
otherwise build the blob and, when the interactive path is supported, not
blocked, and either a handle exists or the user confirms, obtain a handle
(reusing a pre-selected one) and write; any failure in that path, including
prompt cancellation, falls back to triggerDownload. When the interactive path
is not taken, triggerDownload runs directly. The older variant part_000 lines
137-158 lacks the support and blocked guards and the confirm dialog. -/
def saveRecording (c : Caps) (env : SaveEnv) (s : State) : State × List Eff :=
  if s.recordedChunks = [] then (s, [])
  else
    let blob := mkBlob s.recordedChunks
    if c.supportsFileSystemAccess && !s.isFilePickerBlocked then
      match s.fileHandle with
      | some _ =>
          match env.writeResult with
          | Res.ok _ => (s, [Eff.writeBlob blob])
          | Res.err _ => triggerDownload blob env.downloadThrows s
      | none =>
          if env.confirmAnswer then
            match env.pickerResult with
            | Res.ok name =>
                let s1 := { s with fileHandle := some name }
                match env.writeResult with
                | Res.ok _ => (s1, [Eff.confirmPrompt, Eff.showPicker, Eff.writeBlob blob])
                | Res.err _ =>
                    let d := triggerDownload blob env.downloadThrows s1
                    (d.1, [Eff.confirmPrompt, Eff.showPicker] ++ d.2)
            | Res.err _ =>
                let d := triggerDownload blob env.downloadThrows s
                (d.1, [Eff.confirmPrompt, Eff.showPicker] ++ d.2)
          else
            let d := triggerDownload blob env.downloadThrows s
            (d.1, [Eff.confirmPrompt] ++ d.2)
    else
      triggerDownload blob env.downloadThrows s

/-- pickSaveLocation (script.js lines 147-176): guarded on interactive-save
support; on picker success store the handle and its name, on cancellation do
nothing, on a security or permission rejection set the sticky blocked flag and
disable the button, on other errors only update the status line. -/
def pickSaveLocation (c : Caps) (pickerResult : Res String) (s : State) :
    State × List Eff :=
  if !c.supportsFileSystemAccess then (s, [])
  else
    match pickerResult with
    | Res.ok name =>
        ({ s with
            fileHandle := some name,
            saveStatus := "Saving to: " ++ name }, [Eff.showPicker])
    | Res.err n =>
        if n = "AbortError" then (s, [Eff.showPicker])
        else if n = "SecurityError" ∨ n = "NotAllowedError" then
          ({ s with
              isFilePickerBlocked := true,
              saveStatus := "Browser blocked folder access. Using Auto-download mode.",
              pickSaveBtnDisabled := true }, [Eff.showPicker])
        else
          ({ s with saveStatus := "Error setting path. Will auto-download." }, [Eff.showPicker])

/-- resetToInitial (script.js lines 300-323): cancel the timer, restore the
idle displays, disable start and stop, re-enable source selection gated by
capability, stop every track of the held stream and drop it, clear the
preview, the source label, and the save handle. -/
def resetToInitial (c : Caps) (s : State) : State × List Eff :=
  ({ s with
      timerInterval := false,
      timerDisplay := "00:00:00",
      startBtnDisabled := true,
      stopBtnDisabled := true,
      pickSourceBtnDisabled := !c.supportsDisplayMedia,
      statusText := "Ready to Record",
      statusDotColor := "#10b981",
      currentStream := none,
      preview := none,
      sourceStatus := "No source selected",
      saveStatus :=
        if !c.supportsFileSystemAccess then "Auto-download mode active"
        else "Auto-download if not set",
      fileHandle := none }, streamStops s.currentStream)

/-- ondataavailable handler (script.js lines 203-207): append a chunk to the
accumulated list exactly when it is non-empty, preserving arrival order. -/
def handleData (s : State) (chunk : Chunk) : State :=
  if 0 < chunk.length then
    { s with recordedChunks := s.recordedChunks ++ [chunk] }
  else s

/-- onstop handler (script.js lines 209-212): save the recording, then reset
to the initial state regardless of the save outcome. -/
def onstopHandler (c : Caps) (env : SaveEnv) (s : State) : State × List Eff :=
  let r1 := saveRecording c env s
  let r2 := resetToInitial c r1.1
  (r2.1, r1.2 ++ r2.2)

/-- Guard of stopRecording and of the onended handler (script.js lines 122 and
235): the recorder exists and its state is not inactive. -/
def recorderActive (s : State) : Bool :=
  match s.mediaRecorder with
  | some RecState.recording => true
  | _ => false

/-- stopRecording (script.js lines 234-238): request encoder stop only when
the recorder is active; stopping makes the recorder inactive, and the onstop
callback is delivered later as a separate event. -/
def stopRecording (s : State) : State × List Eff :=
  if recorderActive s then
    ({ s with mediaRecorder := some RecState.inactive }, [Eff.recorderStop])
  else (s, [])

/-- Environment for startRecording: the set of mime types the host encoder
reports as supported, and whether the MediaRecorder constructor throws. -/
structure StartEnv where
  supportedTypes : List String
  ctorThrows : Bool
deriving DecidableEq, Repr

/-- Ordered encoding-format preference list (script.js lines 188-192). -/
def candidateTypes : List String :=
  ["video/webm; codecs=vp9,opus", "video/webm; codecs=vp8,opus", "video/webm"]

/-- startRecording (script.js lines 181-229): return immediately when no
stream is bound; otherwise clear the chunk list, pick the first supported
format (aborting with a message when none is), create and start the recorder,
start the timer and flip the UI affordances to the recording state. The
constructor-failure message of line 227 carries the thrown error text, which
the oracle does not track, so a fixed marker stands for it. -/
def startRecording (env : StartEnv) (s : State) : State × List Eff :=
  match s.currentStream with
  | none => (s, [])
  | some _ =>
      let s0 := { s with recordedChunks := [] }
      match candidateTypes.find? (fun t => env.supportedTypes.contains t) with
      | none =>
          (showMessage "Your browser doesn\x27t support the required recording formats." "error" s0, [])
      | some _ =>
          if env.ctorThrows then
            (showMessage "Failed to start recording: (constructor error)" "error" s0, [])
          else
            ({ s0 with
                mediaRecorder := some RecState.recording,
                timerInterval := true,
                startBtnDisabled := true,
                stopBtnDisabled := false,
                pickSourceBtnDisabled := true,
                statusText := "Recording...",
                statusDotColor := "#ef4444" }, [Eff.recorderStart])

/-- Environment for pickSource: the outcomes of the first, constraint-rich
capture request and of the minimal retry. -/
structure SourceEnv where
  firstResult : Res Stream
  secondResult : Res Stream
deriving DecidableEq, Repr

/-- Successful stream acquisition (script.js lines 112-118): bind the stream
to the preview, derive the source label from the video track label with a
generic fallback, and enable the start action. The onended registration of
lines 121-126 is modelled by the trackEnded event of the step machine, which
is enabled exactly while a stream is bound. -/
def bindStream (st : Stream) (s : State) : State :=
  { s with
      currentStream := some st,
      preview := some st,
      sourceStatus :=
        "Source: " ++ (if st.videoLabel = "" then "Selected Tab/Screen" else st.videoLabel),
      startBtnDisabled := false }

/-- Error taxonomy of the pickSource catch block (script.js lines 128-141):
permission denial is informational, security rejection gets its own error
text, anything else a generic error naming the error; the generic text of line
135 also carries the error message and an optional Brave tip, which the oracle
does not track, so the name alone stands for it. -/
def pickSourceCatch (name : String) (s : State) : State :=
  if name = "NotAllowedError" then
    showMessage "Permission denied. Please allow screen sharing to record." "info" s
  else if name = "SecurityError" then
    showMessage "Security Error: Brave Shields or browser security might be blocking the capture. Try disabling Shields for this site." "error" s
  else
    showMessage ("Error (" ++ name ++ "): (error message)") "error" s

/-- pickSource (script.js lines 87-142): return when capture is unsupported;
otherwise hide the banner, stop every track of any prior stream, request
capture with the rich constraint set, and on any failure of that first request
retry exactly once with the minimal set; a second failure goes to the catch
taxonomy. The older variant part_000 lines 39-42 has no retry. -/
def pickSource (c : Caps) (env : SourceEnv) (s : State) : State × List Eff :=
  if !c.supportsDisplayMedia then (s, [])
  else
    let s1 := { s with systemMessage := none }
    let stops : List Eff := streamStops s1.currentStream
    match env.firstResult with
    | Res.ok st => (bindStream st s1, stops ++ [Eff.getDisplayMedia false])
    | Res.err _ =>
        match env.secondResult with
        | Res.ok st =>
            (bindStream st s1, stops ++ [Eff.getDisplayMedia false, Eff.getDisplayMedia true])
        | Res.err n =>
            (pickSourceCatch n s1, stops ++ [Eff.getDisplayMedia false, Eff.getDisplayMedia true])

/-- Oracle for the asynchronous continuation of a track-ended revocation: the
final dataavailable deliveries that follow the encoder stop, and the save
outcomes. -/
structure EndEnv where
  finalChunks : List Chunk
  save : SaveEnv
deriving DecidableEq, Repr

/-- onended handler (script.js lines 121-126) together with the asynchronous
cascade it triggers. The handler itself stops the recorder when active and
then resets synchronously; the encoder stop later fires the final
dataavailable deliveries and the onstop handler, which saves the accumulated
chunks and resets again. When no recording is active only the synchronous
reset happens. -/
def revocation (c : Caps) (env : EndEnv) (s : State) : State × List Eff :=
  if recorderActive s then
    let s1 := { s with mediaRecorder := some RecState.inactive }
    let r2 := resetToInitial c s1
    let s3 := env.finalChunks.foldl handleData r2.1
    let r4 := onstopHandler c env.save s3
    (r4.1, [Eff.recorderStop] ++ r2.2 ++ r4.2)
  else
    let r2 := resetToInitial c s
    (r2.1, r2.2)

/-- UI and host events that can invoke the handlers of script.js. -/
inductive Ev
  | clickPickSource (env : SourceEnv)
  | clickPickSave (res : Res String)
  | clickStart (env : StartEnv)
  | clickStop
  | dataAvailable (chunk : Chunk)
  | recorderStopped (env : SaveEnv)
  | trackEnded (env : EndEnv)

/-- Guard telling when an event can occur: a click needs its button enabled
and visible, a dataavailable delivery needs an active recorder, an onstop
delivery needs a recorder object, a track-ended notification needs a bound
stream whose track carries the registered handler. -/
def canFire (s : State) : Ev → Bool
  | Ev.clickPickSource _ => !s.pickSourceBtnDisabled
  | Ev.clickPickSave _ => !s.pickSaveBtnDisabled && !s.pickSaveBtnHidden
  | Ev.clickStart _ => !s.startBtnDisabled
  | Ev.clickStop => !s.stopBtnDisabled
  | Ev.dataAvailable _ => recorderActive s
  | Ev.recorderStopped _ => s.mediaRecorder.isSome
  | Ev.trackEnded _ => s.currentStream.isSome

/-- Dispatch of events to the handlers wired up at script.js lines 325-328
plus the recorder and track callbacks. -/
def step (c : Caps) (s : State) : Ev → State × List Eff
  | Ev.clickPickSource env => pickSource c env s
  | Ev.clickPickSave res => pickSaveLocation c res s
  | Ev.clickStart env => startRecording env s
  | Ev.clickStop => stopRecording s
  | Ev.dataAvailable chunk => (handleData s chunk, [])
  | Ev.recorderStopped env => onstopHandler c env s
  | Ev.trackEnded env => revocation c env s

/-- Modelled from the spec: the initial DOM state of the page markup, which is
not among the sources; section 8 of the spec fixes the initial Idle state as
timer text 00:00:00 with the start and stop actions disabled, and the script
itself initializes the module variables: no recorder, no chunks, no stream, no
handle, blocked flag clear. -/
def htmlInitState : State :=
  { mediaRecorder := none,
    recordedChunks := [],
    timerInterval := false,
    timerDisplay := "00:00:00",
    startBtnDisabled := true,
    stopBtnDisabled := true,
    pickSourceBtnDisabled := false,
    pickSaveBtnDisabled := false,
    pickSaveBtnHidden := false,
    statusText := "Ready to Record",
    statusDotColor := "#10b981",
    currentStream := none,
    preview := none,
    sourceStatus := "No source selected",
    saveStatus := "Auto-download if not set",
    fileHandle := none,
    isFilePickerBlocked := false,
    systemMessage := none }

/-- Page state right after the init call of script.js line 331. -/
def initState (c : Caps) : State := init c htmlInitState

/-- States reachable from the initialized page through guarded events. -/
inductive Reach (c : Caps) : State → Prop
  | base : Reach c (initState c)
  | next {s : State} (ev : Ev) : Reach c s → canFire s ev = true →
      Reach c (step c s ev).1

/-- Idle shape of the controller state: the fields the reset procedure
restores, as enumerated in section 8 of the spec. -/
def IdleState (s : State) : Prop :=
  s.timerDisplay = "00:00:00" ∧ s.startBtnDisabled = true ∧
  s.stopBtnDisabled = true ∧ s.timerInterval = false ∧
  s.currentStream = none ∧ s.preview = none ∧
  s.sourceStatus = "No source selected" ∧ s.fileHandle = none

/-- Capability profile of a fully featured secure desktop host. -/
def capsFull : Caps :=
  { supportsDisplayMedia := true, supportsFileSystemAccess := true,
    isMobile := false, secureContext := true }

/-- Capability profile of a secure host without interactive save. -/
def capsNoFsa : Caps :=
  { supportsDisplayMedia := true, supportsFileSystemAccess := false,
    isMobile := false, secureContext := true }

/-- Capability profile of a feature-rich host in an insecure context. -/
def capsInsecure : Caps :=
  { supportsDisplayMedia := true, supportsFileSystemAccess := true,
    isMobile := false, secureContext := false }

/-- Concrete capture stream used in witnesses. -/
def demoStream : Stream := { trackIds := [0], videoLabel := "Screen 1" }

/-- Page state holding one accumulated chunk, ready to save. -/
def sOneChunk : State := { htmlInitState with recordedChunks := [[1]] }

/-- Save oracle whose picker throws a security rejection. -/
def securityEnv : SaveEnv :=
  { confirmAnswer := true, pickerResult := Res.err "SecurityError",
    writeResult := Res.ok (), downloadThrows := false }

/-- Save oracle with every interaction succeeding and the confirm declined. -/
def plainSaveEnv : SaveEnv :=
  { confirmAnswer := false, pickerResult := Res.ok "rec.webm",
    writeResult := Res.ok (), downloadThrows := false }

/-- Source oracle whose capture requests both succeed. -/
def okSourceEnv : SourceEnv :=
  { firstResult := Res.ok demoStream, secondResult := Res.ok demoStream }

/- General lemmas about the embedded operations. -/

lemma foldl_handleData_chunks (evts : List Chunk) (s : State) :
    (evts.foldl handleData s).recordedChunks
      = s.recordedChunks ++ evts.filter (fun ch => decide (0 < ch.length)) := by
  induction evts generalizing s with
  | nil => simp
  | cons ch t ih =>
      simp only [List.foldl_cons, List.filter_cons]
      by_cases h : 0 < ch.length
      · rw [ih]; simp [handleData, h, List.append_assoc]
      · rw [ih]; simp [handleData, h]

lemma triggerDownload_effs (b : List Nat) (t : Bool) (s : State) :
    (triggerDownload b t s).2 = if t then [] else [Eff.download b] := by
  cases t <;> rfl

lemma reset_idle (c : Caps) (s : State) : IdleState (resetToInitial c s).1 :=
  ⟨rfl, rfl, rfl, rfl, rfl, rfl, rfl, rfl⟩

lemma startRecording_none_aux (env : StartEnv) (s : State)
    (h : s.currentStream = none) : startRecording env s = (s, []) := by
  simp [startRecording, h]

lemma stopRecording_inactive_aux (s : State) (h : recorderActive s = false) :
    stopRecording s = (s, []) := by
  simp [stopRecording, h]

/-- C1: starting from the cleared chunk buffer of a fresh recording session,
any sequence of chunk-arrival events leaves exactly the non-empty chunks in
the buffer in arrival order, with nothing dropped, duplicated or reordered,
and the blob handed to the save procedure is their concatenation in that
order. -/
theorem saved_blob_concatenates_nonempty_chunks_in_order
    (evts : List Chunk) (s : State) (h : s.recordedChunks = []) :
    (evts.foldl handleData s).recordedChunks
        = evts.filter (fun ch => decide (0 < ch.length)) ∧
      mkBlob (evts.foldl handleData s).recordedChunks
        = (evts.filter (fun ch => decide (0 < ch.length))).flatten := by
  have h1 := foldl_handleData_chunks evts s
  rw [h, List.nil_append] at h1
  exact ⟨h1, by rw [h1]; rfl⟩

/-- Witness for C1 at a concrete event sequence with an empty chunk mixed in. -/
theorem saved_blob_concatenates_nonempty_chunks_in_order_witness :
    htmlInitState.recordedChunks = [] ∧
      ((([[1, 2], [], [3]] : List Chunk).foldl handleData htmlInitState).recordedChunks
          = ([[1, 2], [], [3]] : List Chunk).filter (fun ch => decide (0 < ch.length)) ∧
        mkBlob ((([[1, 2], [], [3]] : List Chunk).foldl handleData htmlInitState).recordedChunks)
          = (([[1, 2], [], [3]] : List Chunk).filter (fun ch => decide (0 < ch.length))).flatten) :=
  ⟨rfl, saved_blob_concatenates_nonempty_chunks_in_order [[1, 2], [], [3]] htmlInitState rfl⟩

/-- C2: after resetToInitial, whatever state it ran from and whichever path
invoked it, the controller has the initial Idle shape: timer 00:00:00, start
and stop disabled, stream reference dropped with a stop call issued for every
track of the held stream, preview and source label cleared, and the save
handle null. -/
theorem reset_restores_initial_idle (c : Caps) (s : State) :
    IdleState (resetToInitial c s).1 ∧
      (resetToInitial c s).2 = streamStops s.currentStream :=
  ⟨reset_idle c s, rfl⟩

/-- C9: stopRecording with an absent or inactive encoder is a no-op that
performs no provider call and leaves the state untouched; moreover stopping is
idempotent, since a second stop after any stop is always such a no-op. -/
theorem stop_recording_inactive_noop (s : State)
    (h : s.mediaRecorder = none ∨ s.mediaRecorder = some RecState.inactive) :
    stopRecording s = (s, []) ∧
      ∀ s2 : State, stopRecording (stopRecording s2).1 = ((stopRecording s2).1, []) := by
  constructor
  · have hA : recorderActive s = false := by
      rcases h with h | h <;> simp [recorderActive, h]
    exact stopRecording_inactive_aux s hA
  · intro s2
    by_cases hA : recorderActive s2 = true
    · have h1 : stopRecording s2 =
          ({ s2 with mediaRecorder := some RecState.inactive }, [Eff.recorderStop]) := by
        simp [stopRecording, hA]
      rw [h1]
      simp [stopRecording, recorderActive]
    · simp only [Bool.not_eq_true] at hA
      simp [stopRecording, hA]

/-- Witness for C9 at the initial page state, which has no recorder. -/
theorem stop_recording_inactive_noop_witness :
    (htmlInitState.mediaRecorder = none ∨
        htmlInitState.mediaRecorder = some RecState.inactive) ∧
      (stopRecording htmlInitState = (htmlInitState, []) ∧
        ∀ s2 : State, stopRecording (stopRecording s2).1 = ((stopRecording s2).1, [])) :=
  ⟨Or.inl rfl, stop_recording_inactive_noop htmlInitState (Or.inl rfl)⟩

/-- C10: startRecording with no bound capture stream returns immediately with
no state change and no host call: no encoder is created and buffer, timer and
UI affordances are untouched. -/
theorem start_recording_without_stream_noop (env : StartEnv) (s : State)
    (h : s.currentStream = none) :
    startRecording env s = (s, []) :=
  startRecording_none_aux env s h

/-- Witness for C10 at the initial page state, which has no stream. -/
theorem start_recording_without_stream_noop_witness :
    htmlInitState.currentStream = none ∧
      startRecording { supportedTypes := ["video/webm"], ctorThrows := false }
          htmlInitState = (htmlInitState, []) :=
  ⟨rfl, start_recording_without_stream_noop
    { supportedTypes := ["video/webm"], ctorThrows := false } htmlInitState rfl⟩

/- Save-path lemmas. -/

lemma save_fallback_of_gate_false (c : Caps) (env : SaveEnv) (s : State)
    (hg : (c.supportsFileSystemAccess && !s.isFilePickerBlocked) = false)
    (hne : s.recordedChunks ≠ []) :
    saveRecording c env s
      = triggerDownload (mkBlob s.recordedChunks) env.downloadThrows s := by
  simp [saveRecording, hne, hg]

lemma save_no_interactive_of_gate_false (c : Caps) (env : SaveEnv) (s : State)
    (hg : (c.supportsFileSystemAccess && !s.isFilePickerBlocked) = false) :
    Eff.showPicker ∉ (saveRecording c env s).2 ∧
      Eff.confirmPrompt ∉ (saveRecording c env s).2 := by
  by_cases hne : s.recordedChunks = []
  · simp [saveRecording, hne]
  · rw [save_fallback_of_gate_false c env s hg hne]
    rw [triggerDownload_effs]
    constructor <;> · split <;> simp

lemma save_no_picker_of_nofsa (c : Caps) (env : SaveEnv) (s : State)
    (hc : c.supportsFileSystemAccess = false) :
    Eff.showPicker ∉ (saveRecording c env s).2 :=
  (save_no_interactive_of_gate_false c env s (by simp [hc])).1

lemma reset_no_picker (c : Caps) (s : State) :
    Eff.showPicker ∉ (resetToInitial c s).2 := by
  show Eff.showPicker ∉ streamStops s.currentStream
  cases s.currentStream <;> simp [streamStops]

lemma onstop_no_picker_of_nofsa (c : Caps) (env : SaveEnv) (s : State)
    (hc : c.supportsFileSystemAccess = false) :
    Eff.showPicker ∉ (onstopHandler c env s).2 := by
  show Eff.showPicker ∉ (saveRecording c env s).2 ++ (resetToInitial c _).2
  rw [List.mem_append]
  rintro (h | h)
  · exact save_no_picker_of_nofsa c env s hc h
  · exact reset_no_picker c _ h

lemma revocation_no_picker_of_nofsa (c : Caps) (env : EndEnv) (s : State)
    (hc : c.supportsFileSystemAccess = false) :
    Eff.showPicker ∉ (revocation c env s).2 := by
  by_cases hA : recorderActive s = true
  · have hrev : (revocation c env s).2
        = [Eff.recorderStop]
            ++ (resetToInitial c { s with mediaRecorder := some RecState.inactive }).2
            ++ (onstopHandler c env.save
                  (env.finalChunks.foldl handleData
                    (resetToInitial c { s with mediaRecorder := some RecState.inactive }).1)).2 := by
      simp [revocation, hA]
    rw [hrev]
    simp only [List.mem_append, List.mem_singleton]
    rintro ((h | h) | h)
    · exact Eff.noConfusion h
    · exact reset_no_picker c _ h
    · exact onstop_no_picker_of_nofsa c env.save _ hc h
  · simp only [Bool.not_eq_true] at hA
    have : (revocation c env s).2 = (resetToInitial c s).2 := by
      simp [revocation, hA]
    rw [this]
    exact reset_no_picker c s

lemma pickSource_no_picker (c : Caps) (env : SourceEnv) (s : State) :
    Eff.showPicker ∉ (pickSource c env s).2 := by
  by_cases hc : c.supportsDisplayMedia = true
  · rcases hf : env.firstResult with st | n
    · simp [pickSource, hc, hf, streamStops]
      cases s.currentStream <;> simp [streamStops]
    · rcases hs : env.secondResult with st2 | n2 <;>
      · simp [pickSource, hc, hf, hs, streamStops]
        cases s.currentStream <;> simp [streamStops]
  · simp only [Bool.not_eq_true] at hc
    simp [pickSource, hc]

lemma startRecording_no_picker (env : StartEnv) (s : State) :
    Eff.showPicker ∉ (startRecording env s).2 := by
  rcases hcur : s.currentStream with _ | st
  · simp [startRecording, hcur]
  · simp only [startRecording, hcur]
    rcases hft : candidateTypes.find? (fun t => env.supportedTypes.contains t) with _ | t
    · simp
    · by_cases hct : env.ctorThrows = true <;> simp [hct]

lemma stopRecording_no_picker (s : State) :
    Eff.showPicker ∉ (stopRecording s).2 := by
  by_cases hA : recorderActive s = true
  · simp [stopRecording, hA]
  · simp only [Bool.not_eq_true] at hA
    simp [stopRecording, hA]

lemma step_no_picker_of_nofsa (c : Caps) (hc : c.supportsFileSystemAccess = false)
    (s : State) (ev : Ev) : Eff.showPicker ∉ (step c s ev).2 := by
  cases ev with
  | clickPickSource e => exact pickSource_no_picker c e s
  | clickPickSave r => simp [step, pickSaveLocation, hc]
  | clickStart e => exact startRecording_no_picker e s
  | clickStop => exact stopRecording_no_picker s
  | dataAvailable ch => simp [step]
  | recorderStopped e => exact onstop_no_picker_of_nofsa c e s hc
  | trackEnded e => exact revocation_no_picker_of_nofsa c e s hc

/-- C3: when interactive save is unsupported, saveRecording on a non-empty
recording is exactly the fallback download path, invoking neither the save
picker nor the confirm dialog and delivering the blob as a download whenever
the host permits downloads; moreover no event the page can ever process
invokes the save picker in that configuration. -/
theorem unsupported_interactive_save_always_downloads
    (c : Caps) (env : SaveEnv) (s : State)
    (hc : c.supportsFileSystemAccess = false) (hne : s.recordedChunks ≠ []) :
    saveRecording c env s
        = triggerDownload (mkBlob s.recordedChunks) env.downloadThrows s ∧
      Eff.showPicker ∉ (saveRecording c env s).2 ∧
      Eff.confirmPrompt ∉ (saveRecording c env s).2 ∧
      (env.downloadThrows = false →
        Eff.download (mkBlob s.recordedChunks) ∈ (saveRecording c env s).2) ∧
      (∀ (s2 : State) (ev : Ev), Eff.showPicker ∉ (step c s2 ev).2) := by
  have hg : (c.supportsFileSystemAccess && !s.isFilePickerBlocked) = false := by
    simp [hc]
  have hfb := save_fallback_of_gate_false c env s hg hne
  have hni := save_no_interactive_of_gate_false c env s hg
  refine ⟨hfb, hni.1, hni.2, ?_, fun s2 ev => step_no_picker_of_nofsa c hc s2 ev⟩
  intro hdl
  rw [hfb, triggerDownload_effs, hdl]
  simp

/-- Witness for C3 on a one-chunk recording with interactive save absent. -/
theorem unsupported_interactive_save_always_downloads_witness :
    capsNoFsa.supportsFileSystemAccess = false ∧
      sOneChunk.recordedChunks ≠ [] ∧
      (saveRecording capsNoFsa plainSaveEnv sOneChunk
          = triggerDownload (mkBlob sOneChunk.recordedChunks)
              plainSaveEnv.downloadThrows sOneChunk ∧
        Eff.showPicker ∉ (saveRecording capsNoFsa plainSaveEnv sOneChunk).2 ∧
        Eff.confirmPrompt ∉ (saveRecording capsNoFsa plainSaveEnv sOneChunk).2 ∧
        (plainSaveEnv.downloadThrows = false →
          Eff.download (mkBlob sOneChunk.recordedChunks)
            ∈ (saveRecording capsNoFsa plainSaveEnv sOneChunk).2) ∧
        (∀ (s2 : State) (ev : Ev), Eff.showPicker ∉ (step capsNoFsa s2 ev).2)) :=
  ⟨rfl, by decide,
    unsupported_interactive_save_always_downloads capsNoFsa plainSaveEnv sOneChunk
      rfl (by decide)⟩

/-- C8: cancelling the interactive save prompt is handled as a normal outcome:
the fallback download is triggered with the same finalized blob and the banner
afterwards carries the informational generic downloads confirmation, not an
error. -/
theorem cancel_prompt_falls_back_to_download
    (c : Caps) (env : SaveEnv) (s : State)
    (hc : c.supportsFileSystemAccess = true)
    (hb : s.isFilePickerBlocked = false)
    (hh : s.fileHandle = none)
    (hne : s.recordedChunks ≠ [])
    (hconf : env.confirmAnswer = true)
    (habort : env.pickerResult = Res.err "AbortError")
    (hdl : env.downloadThrows = false) :
    Eff.download (mkBlob s.recordedChunks) ∈ (saveRecording c env s).2 ∧
      (saveRecording c env s).1.systemMessage
        = some ("Recording saved to Downloads folder.", "info") := by
  simp [saveRecording, hne, hc, hb, hh, hconf, habort, hdl, triggerDownload, showMessage]

/-- Witness for C8: a one-chunk recording whose save prompt is cancelled. -/
theorem cancel_prompt_falls_back_to_download_witness :
    capsFull.supportsFileSystemAccess = true ∧
      sOneChunk.isFilePickerBlocked = false ∧
      sOneChunk.fileHandle = none ∧
      sOneChunk.recordedChunks ≠ [] ∧
      (SaveEnv.mk true (Res.err "AbortError") (Res.ok ()) false).confirmAnswer = true ∧
      (SaveEnv.mk true (Res.err "AbortError") (Res.ok ()) false).pickerResult
        = Res.err "AbortError" ∧
      (SaveEnv.mk true (Res.err "AbortError") (Res.ok ()) false).downloadThrows = false ∧
      (Eff.download (mkBlob sOneChunk.recordedChunks)
          ∈ (saveRecording capsFull
              (SaveEnv.mk true (Res.err "AbortError") (Res.ok ()) false) sOneChunk).2 ∧
        (saveRecording capsFull
            (SaveEnv.mk true (Res.err "AbortError") (Res.ok ()) false) sOneChunk).1.systemMessage
          = some ("Recording saved to Downloads folder.", "info")) :=
  ⟨rfl, rfl, rfl, by decide, rfl, rfl, rfl,
    cancel_prompt_falls_back_to_download capsFull
      (SaveEnv.mk true (Res.err "AbortError") (Res.ok ()) false) sOneChunk
      rfl rfl rfl (by decide) rfl rfl rfl⟩

/- Revocation lemmas. -/

lemma save_attempt (c : Caps) (env : SaveEnv) (s : State)
    (hne : s.recordedChunks ≠ []) (hdl : env.downloadThrows = false) :
    Eff.writeBlob (mkBlob s.recordedChunks) ∈ (saveRecording c env s).2 ∨
      Eff.download (mkBlob s.recordedChunks) ∈ (saveRecording c env s).2 := by
  by_cases hg : (c.supportsFileSystemAccess && !s.isFilePickerBlocked) = true
  · rcases hfh : s.fileHandle with _ | name
    · by_cases hcf : env.confirmAnswer = true
      · rcases hp : env.pickerResult with nm | en
        · rcases hw : env.writeResult with u | wn
          · left; simp [saveRecording, hne, hg, hfh, hcf, hp, hw]
          · right; simp [saveRecording, hne, hg, hfh, hcf, hp, hw, triggerDownload, hdl]
        · right; simp [saveRecording, hne, hg, hfh, hcf, hp, triggerDownload, hdl]
      · right; simp [saveRecording, hne, hg, hfh, hcf, triggerDownload, hdl]
    · rcases hw : env.writeResult with u | wn
      · left; simp [saveRecording, hne, hg, hfh, hw]
      · right; simp [saveRecording, hne, hg, hfh, hw, triggerDownload, hdl]
  · simp only [Bool.not_eq_true] at hg
    right
    have hfb := save_fallback_of_gate_false c env s hg hne
    rw [hfb, triggerDownload_effs, hdl]
    simp

/-- C4: a sharing revocation while a recording is active stops the encoder
first, runs the save procedure on the accumulated recording, and leaves the
controller in the Idle shape afterwards, without further user action; the
final state is the reset of the post-save state, so the reset to Idle follows
the save attempt, and when anything was recorded the effect trace contains the
write or download of the accumulated blob. -/
theorem revocation_stop_save_reset (c : Caps) (env : EndEnv) (s : State)
    (hA : recorderActive s = true) :
    (revocation c env s).2.head? = some Eff.recorderStop ∧
      IdleState (revocation c env s).1 ∧
      (revocation c env s).1
        = (resetToInitial c
            (saveRecording c env.save
              (env.finalChunks.foldl handleData
                (resetToInitial c { s with mediaRecorder := some RecState.inactive }).1)).1).1 ∧
      ((s.recordedChunks ++ env.finalChunks.filter (fun ch => decide (0 < ch.length))) ≠ [] →
        env.save.downloadThrows = false →
          Eff.writeBlob (mkBlob (s.recordedChunks
              ++ env.finalChunks.filter (fun ch => decide (0 < ch.length))))
              ∈ (revocation c env s).2 ∨
            Eff.download (mkBlob (s.recordedChunks
              ++ env.finalChunks.filter (fun ch => decide (0 < ch.length))))
              ∈ (revocation c env s).2) := by
  have hrev1 : (revocation c env s).1
      = (onstopHandler c env.save
          (env.finalChunks.foldl handleData
            (resetToInitial c { s with mediaRecorder := some RecState.inactive }).1)).1 := by
    simp [revocation, hA]
  have hrev2 : (revocation c env s).2
      = [Eff.recorderStop]
          ++ (resetToInitial c { s with mediaRecorder := some RecState.inactive }).2
          ++ (onstopHandler c env.save
              (env.finalChunks.foldl handleData
                (resetToInitial c { s with mediaRecorder := some RecState.inactive }).1)).2 := by
    simp [revocation, hA]
  have hchunks : (env.finalChunks.foldl handleData
        (resetToInitial c { s with mediaRecorder := some RecState.inactive }).1).recordedChunks
      = s.recordedChunks ++ env.finalChunks.filter (fun ch => decide (0 < ch.length)) := by
    rw [foldl_handleData_chunks]; rfl
  refine ⟨?_, ?_, ?_, ?_⟩
  · rw [hrev2]; rfl
  · rw [hrev1]; exact reset_idle c _
  · rw [hrev1]; rfl
  · intro hne hdl
    have hatt := save_attempt c env.save
        (env.finalChunks.foldl handleData
          (resetToInitial c { s with mediaRecorder := some RecState.inactive }).1)
        (by rw [hchunks]; exact hne) hdl
    rw [hchunks] at hatt
    have hC : (onstopHandler c env.save
          (env.finalChunks.foldl handleData
            (resetToInitial c { s with mediaRecorder := some RecState.inactive }).1)).2
        = (saveRecording c env.save
            (env.finalChunks.foldl handleData
              (resetToInitial c { s with mediaRecorder := some RecState.inactive }).1)).2
          ++ (resetToInitial c
              (saveRecording c env.save
                (env.finalChunks.foldl handleData
                  (resetToInitial c { s with mediaRecorder := some RecState.inactive }).1)).1).2 := rfl
    rw [hrev2, hC]
    rcases hatt with h | h
    · exact Or.inl (List.mem_append_right _ (List.mem_append_left _ h))
    · exact Or.inr (List.mem_append_right _ (List.mem_append_left _ h))

/-- Page state in the middle of a recording, used in witnesses. -/
def sRecording : State :=
  { htmlInitState with
      mediaRecorder := some RecState.recording,
      currentStream := some demoStream,
      recordedChunks := [[1]],
      timerInterval := true,
      startBtnDisabled := true,
      stopBtnDisabled := false,
      pickSourceBtnDisabled := true }

/-- Revocation oracle delivering one final chunk and a declined confirm. -/
def endEnvDemo : EndEnv := { finalChunks := [[2]], save := plainSaveEnv }

/-- Witness for C4 on a concrete active-recording state. -/
theorem revocation_stop_save_reset_witness :
    recorderActive sRecording = true ∧
      ((revocation capsFull endEnvDemo sRecording).2.head? = some Eff.recorderStop ∧
        IdleState (revocation capsFull endEnvDemo sRecording).1 ∧
        (revocation capsFull endEnvDemo sRecording).1
          = (resetToInitial capsFull
              (saveRecording capsFull endEnvDemo.save
                (endEnvDemo.finalChunks.foldl handleData
                  (resetToInitial capsFull
                    { sRecording with mediaRecorder := some RecState.inactive }).1)).1).1 ∧
        ((sRecording.recordedChunks
            ++ endEnvDemo.finalChunks.filter (fun ch => decide (0 < ch.length))) ≠ [] →
          endEnvDemo.save.downloadThrows = false →
            Eff.writeBlob (mkBlob (sRecording.recordedChunks
                ++ endEnvDemo.finalChunks.filter (fun ch => decide (0 < ch.length))))
                ∈ (revocation capsFull endEnvDemo sRecording).2 ∨
              Eff.download (mkBlob (sRecording.recordedChunks
                ++ endEnvDemo.finalChunks.filter (fun ch => decide (0 < ch.length))))
                ∈ (revocation capsFull endEnvDemo sRecording).2)) :=
  ⟨rfl, revocation_stop_save_reset capsFull endEnvDemo sRecording rfl⟩

/- Source-acquisition retry. -/

/-- C5 counterexample: the claim says failures that are not constraint-related,
such as permission denial, are not retried; but when the rich request fails
with NotAllowedError the catch of script.js line 106 is unconditional and the
minimal-constraints retry request is issued anyway. -/
theorem permission_denied_retry_cex :
    Eff.getDisplayMedia true
      ∈ (pickSource capsFull
          (SourceEnv.mk (Res.err "NotAllowedError") (Res.err "NotAllowedError"))
          htmlInitState).2 := by
  decide

/-- C5 amended: a failed constraint-rich capture request is retried exactly
once with the minimal constraint set whatever the failure reason, permission
denial included, before failure is surfaced; a successful rich request is
never followed by a retry. Track-stop calls for a prior stream are the only
other effects and contain no capture request. -/
theorem acquisition_retried_once_on_any_failure
    (c : Caps) (env : SourceEnv) (s : State)
    (hc : c.supportsDisplayMedia = true) :
    (∀ m : Bool, Eff.getDisplayMedia m ∉ streamStops s.currentStream) ∧
      (∀ st, env.firstResult = Res.ok st →
        (pickSource c env s).2
          = streamStops s.currentStream ++ [Eff.getDisplayMedia false]) ∧
      (∀ n, env.firstResult = Res.err n →
        (pickSource c env s).2
          = streamStops s.currentStream
              ++ [Eff.getDisplayMedia false, Eff.getDisplayMedia true]) := by
  refine ⟨?_, ?_, ?_⟩
  · intro m; cases s.currentStream <;> simp [streamStops]
  · intro st hf
    simp [pickSource, hc, hf]
  · intro n hf
    rcases hs : env.secondResult with st2 | n2 <;> simp [pickSource, hc, hf, hs]

/-- Witness for C5 amended on a concrete permission-denied failure. -/
theorem acquisition_retried_once_on_any_failure_witness :
    capsFull.supportsDisplayMedia = true ∧
      ((∀ m : Bool, Eff.getDisplayMedia m ∉ streamStops htmlInitState.currentStream) ∧
        (∀ st, (SourceEnv.mk (Res.err "NotAllowedError")
              (Res.err "NotAllowedError")).firstResult = Res.ok st →
          (pickSource capsFull
              (SourceEnv.mk (Res.err "NotAllowedError") (Res.err "NotAllowedError"))
              htmlInitState).2
            = streamStops htmlInitState.currentStream ++ [Eff.getDisplayMedia false]) ∧
        (∀ n, (SourceEnv.mk (Res.err "NotAllowedError")
              (Res.err "NotAllowedError")).firstResult = Res.err n →
          (pickSource capsFull
              (SourceEnv.mk (Res.err "NotAllowedError") (Res.err "NotAllowedError"))
              htmlInitState).2
            = streamStops htmlInitState.currentStream
                ++ [Eff.getDisplayMedia false, Eff.getDisplayMedia true])) :=
  ⟨rfl, acquisition_retried_once_on_any_failure capsFull
    (SourceEnv.mk (Res.err "NotAllowedError") (Res.err "NotAllowedError"))
    htmlInitState rfl⟩

/- Preservation of the sticky blocked flag. -/

lemma blocked_reset (c : Caps) (s : State) :
    (resetToInitial c s).1.isFilePickerBlocked = s.isFilePickerBlocked := rfl

lemma blocked_save (c : Caps) (env : SaveEnv) (s : State) :
    (saveRecording c env s).1.isFilePickerBlocked = s.isFilePickerBlocked := by
  simp only [saveRecording, triggerDownload, showMessage]
  repeat' split
  all_goals rfl

lemma blocked_onstop (c : Caps) (env : SaveEnv) (s : State) :
    (onstopHandler c env s).1.isFilePickerBlocked = s.isFilePickerBlocked := by
  show (resetToInitial c (saveRecording c env s).1).1.isFilePickerBlocked = _
  rw [blocked_reset, blocked_save]

lemma handleData_fields (s : State) (ch : Chunk) :
    (handleData s ch).isFilePickerBlocked = s.isFilePickerBlocked ∧
      (handleData s ch).pickSourceBtnDisabled = s.pickSourceBtnDisabled ∧
      (handleData s ch).currentStream = s.currentStream ∧
      (handleData s ch).mediaRecorder = s.mediaRecorder := by
  unfold handleData
  split <;> exact ⟨rfl, rfl, rfl, rfl⟩

lemma blocked_foldl (l : List Chunk) (s : State) :
    (l.foldl handleData s).isFilePickerBlocked = s.isFilePickerBlocked := by
  induction l generalizing s with
  | nil => rfl
  | cons ch t ih =>
      simp only [List.foldl_cons]
      exact (ih (handleData s ch)).trans (handleData_fields s ch).1

lemma blocked_revocation (c : Caps) (env : EndEnv) (s : State) :
    (revocation c env s).1.isFilePickerBlocked = s.isFilePickerBlocked := by
  by_cases hA : recorderActive s = true
  · have h1 : (revocation c env s).1
        = (onstopHandler c env.save
            (env.finalChunks.foldl handleData
              (resetToInitial c { s with mediaRecorder := some RecState.inactive }).1)).1 := by
      simp [revocation, hA]
    rw [h1, blocked_onstop, blocked_foldl, blocked_reset]
  · simp only [Bool.not_eq_true] at hA
    have h1 : (revocation c env s).1 = (resetToInitial c s).1 := by
      simp [revocation, hA]
    rw [h1, blocked_reset]

lemma blocked_pickSource (c : Caps) (env : SourceEnv) (s : State) :
    (pickSource c env s).1.isFilePickerBlocked = s.isFilePickerBlocked := by
  simp only [pickSource, bindStream, pickSourceCatch, showMessage]
  repeat' split
  all_goals rfl

lemma blocked_start (env : StartEnv) (s : State) :
    (startRecording env s).1.isFilePickerBlocked = s.isFilePickerBlocked := by
  simp only [startRecording, showMessage]
  repeat' split
  all_goals rfl

lemma blocked_stop (s : State) :
    (stopRecording s).1.isFilePickerBlocked = s.isFilePickerBlocked := by
  unfold stopRecording
  split <;> rfl

lemma blocked_pickSaveLocation (c : Caps) (r : Res String) (s : State)
    (hb : s.isFilePickerBlocked = true) :
    (pickSaveLocation c r s).1.isFilePickerBlocked = true := by
  simp only [pickSaveLocation]
  repeat' split
  all_goals first
    | exact hb
    | rfl

lemma step_preserves_blocked (c : Caps) (s : State) (ev : Ev)
    (hb : s.isFilePickerBlocked = true) :
    (step c s ev).1.isFilePickerBlocked = true := by
  cases ev with
  | clickPickSource e => exact (blocked_pickSource c e s).trans hb
  | clickPickSave r => exact blocked_pickSaveLocation c r s hb
  | clickStart e => exact (blocked_start e s).trans hb
  | clickStop => exact (blocked_stop s).trans hb
  | dataAvailable ch => exact (handleData_fields s ch).1.trans hb
  | recorderStopped e => exact (blocked_onstop c e s).trans hb
  | trackEnded e => exact (blocked_revocation c e s).trans hb

/-- C6 counterexample: a security rejection thrown by the picker inside the
save procedure does not set the sticky blocked flag (the catch of script.js
lines 270-277 never writes it), and the very next save attempts the
interactive picker again, contradicting the claim for the save-procedure
entry path. -/
theorem save_security_rejection_not_sticky_cex :
    (saveRecording capsFull securityEnv sOneChunk).1.isFilePickerBlocked = false ∧
      Eff.showPicker
        ∈ (saveRecording capsFull securityEnv
            (saveRecording capsFull securityEnv sOneChunk).1).2 := by
  decide

/-- C6 amended: a security or permission rejection during save-target
selection sets the sticky blocked flag; once set the flag survives every
event, and while it is set no save attempts any interactive step, invoking
neither the picker nor the confirm dialog. A security rejection during the
save procedure itself however does not set the flag: that save alone falls
back to the download path and later saves may attempt the interactive path
again. -/
theorem sticky_block_from_target_selection
    (c : Caps) (s s2 : State) (n : String) (env : SaveEnv) (ev : Ev)
    (hc : c.supportsFileSystemAccess = true)
    (hn : n = "SecurityError" ∨ n = "NotAllowedError")
    (hb : s2.isFilePickerBlocked = true) :
    (pickSaveLocation c (Res.err n) s).1.isFilePickerBlocked = true ∧
      Eff.showPicker ∉ (saveRecording c env s2).2 ∧
      Eff.confirmPrompt ∉ (saveRecording c env s2).2 ∧
      (step c s2 ev).1.isFilePickerBlocked = true := by
  have hg : (c.supportsFileSystemAccess && !s2.isFilePickerBlocked) = false := by
    simp [hb]
  have hni := save_no_interactive_of_gate_false c env s2 hg
  refine ⟨?_, hni.1, hni.2, step_preserves_blocked c s2 ev hb⟩
  rcases hn with hn | hn <;> subst hn <;> simp [pickSaveLocation, hc]

/-- Page state with the sticky blocked flag set. -/
def sBlocked : State := { htmlInitState with isFilePickerBlocked := true }

/-- Witness for C6 amended at concrete inputs. -/
theorem sticky_block_from_target_selection_witness :
    capsFull.supportsFileSystemAccess = true ∧
      ("SecurityError" = "SecurityError" ∨ "SecurityError" = "NotAllowedError") ∧
      sBlocked.isFilePickerBlocked = true ∧
      ((pickSaveLocation capsFull (Res.err "SecurityError")
            htmlInitState).1.isFilePickerBlocked = true ∧
        Eff.showPicker ∉ (saveRecording capsFull plainSaveEnv sBlocked).2 ∧
        Eff.confirmPrompt ∉ (saveRecording capsFull plainSaveEnv sBlocked).2 ∧
        (step capsFull sBlocked Ev.clickStop).1.isFilePickerBlocked = true) :=
  ⟨rfl, Or.inl rfl, rfl,
    sticky_block_from_target_selection capsFull htmlInitState sBlocked
      "SecurityError" plainSaveEnv Ev.clickStop rfl (Or.inl rfl) rfl⟩

/- Insecure-context reachability. -/

/-- Invariant holding throughout an insecure-context page lifetime: source
selection stays disabled, and no stream or recorder ever exists. -/
def InsecureInv (s : State) : Prop :=
  s.pickSourceBtnDisabled = true ∧ s.currentStream = none ∧ s.mediaRecorder = none

lemma insecure_init (c : Caps) (hsec : c.secureContext = false) :
    InsecureInv (initState c) ∧
      (initState c).systemMessage
        = some ("Screen recording requires a secure (HTTPS) connection. Please check your URL.",
            "error") := by
  have h1 : initState c
      = { showMessage
            "Screen recording requires a secure (HTTPS) connection. Please check your URL."
            "error" htmlInitState
          with pickSourceBtnDisabled := true } := by
    simp [initState, init, hsec]
  rw [h1]
  exact ⟨⟨rfl, rfl, rfl⟩, rfl⟩

lemma pickSaveLocation_fields (c : Caps) (r : Res String) (s : State) :
    (pickSaveLocation c r s).1.pickSourceBtnDisabled = s.pickSourceBtnDisabled ∧
      (pickSaveLocation c r s).1.currentStream = s.currentStream ∧
      (pickSaveLocation c r s).1.mediaRecorder = s.mediaRecorder ∧
      ∀ m : Bool, Eff.getDisplayMedia m ∉ (pickSaveLocation c r s).2 := by
  simp only [pickSaveLocation]
  repeat' split
  all_goals exact ⟨rfl, rfl, rfl, by intro m; simp⟩

lemma insecureInv_step (c : Caps) (s : State) (ev : Ev)
    (hI : InsecureInv s) (hf : canFire s ev = true) :
    InsecureInv (step c s ev).1 ∧
      ∀ m : Bool, Eff.getDisplayMedia m ∉ (step c s ev).2 := by
  obtain ⟨h1, h2, h3⟩ := hI
  cases ev with
  | clickPickSource e =>
      exfalso
      simp [canFire, h1] at hf
  | clickPickSave r =>
      have hp := pickSaveLocation_fields c r s
      exact ⟨⟨hp.1.trans h1, hp.2.1.trans h2, hp.2.2.1.trans h3⟩, hp.2.2.2⟩
  | clickStart e =>
      have hst : step c s (Ev.clickStart e) = (s, []) := startRecording_none_aux e s h2
      rw [hst]
      exact ⟨⟨h1, h2, h3⟩, by intro m; simp⟩
  | clickStop =>
      have hA : recorderActive s = false := by simp [recorderActive, h3]
      have hst : step c s Ev.clickStop = (s, []) := stopRecording_inactive_aux s hA
      rw [hst]
      exact ⟨⟨h1, h2, h3⟩, by intro m; simp⟩
  | dataAvailable ch =>
      exfalso
      simp [canFire, recorderActive, h3] at hf
  | recorderStopped e =>
      exfalso
      simp [canFire, h3] at hf
  | trackEnded e =>
      exfalso
      simp [canFire, h2] at hf

lemma insecure_reach_inv (c : Caps) (hsec : c.secureContext = false) :
    ∀ s, Reach c s → InsecureInv s := by
  intro s h
  induction h with
  | base => exact (insecure_init c hsec).1
  | next ev hr hf ih => exact (insecureInv_step c _ ev ih hf).1

/-- C7 counterexample: pickSource checks only capture support, never the
secure-context flag, so with capture supported and the context insecure it is
not a no-op: it changes state and requests capture, contradicting the claimed
precondition of capture supported and secure context confirmed. -/
theorem pickSource_no_secure_context_guard_cex :
    Eff.getDisplayMedia false
        ∈ (pickSource capsInsecure okSourceEnv htmlInitState).2 ∧
      (pickSource capsInsecure okSourceEnv htmlInitState).1 ≠ htmlInitState := by
  decide

/-- C7 amended: in an insecure context initialization disables source
selection and surfaces the blocking error message, and along every event
sequence reachable from the initialized page no capture request is ever
emitted; pickSource itself, however, guards only on capture support, being a
no-op exactly when capture is unsupported, so the never-attempted guarantee
rests on the disabled affordance, not on a secure-context check inside
pickSource. -/
theorem insecure_context_capture_unreachable (c : Caps)
    (hsec : c.secureContext = false) :
    (initState c).pickSourceBtnDisabled = true ∧
      (initState c).systemMessage
        = some ("Screen recording requires a secure (HTTPS) connection. Please check your URL.",
            "error") ∧
      (∀ s, Reach c s → ∀ ev, canFire s ev = true →
        ∀ m : Bool, Eff.getDisplayMedia m ∉ (step c s ev).2) ∧
      (∀ (env : SourceEnv) (s : State), c.supportsDisplayMedia = false →
        pickSource c env s = (s, [])) := by
  obtain ⟨hI, hmsg⟩ := insecure_init c hsec
  refine ⟨hI.1, hmsg, ?_, ?_⟩
  · intro s hr ev hf m
    exact (insecureInv_step c s ev (insecure_reach_inv c hsec s hr) hf).2 m
  · intro env s hnd
    simp [pickSource, hnd]

/-- Witness for C7 amended at the insecure capability profile. -/
theorem insecure_context_capture_unreachable_witness :
    capsInsecure.secureContext = false ∧
      ((initState capsInsecure).pickSourceBtnDisabled = true ∧
        (initState capsInsecure).systemMessage
          = some ("Screen recording requires a secure (HTTPS) connection. Please check your URL.",
              "error") ∧
        (∀ s, Reach capsInsecure s → ∀ ev, canFire s ev = true →
          ∀ m : Bool, Eff.getDisplayMedia m ∉ (step capsInsecure s ev).2) ∧
        (∀ (env : SourceEnv) (s : State), capsInsecure.supportsDisplayMedia = false →
          pickSource capsInsecure env s = (s, []))) :=
  ⟨rfl, insecure_context_capture_unreachable capsInsecure rfl⟩

end ScreenRecorder
